import Mathlib

/-!
Verification of the chat-component session controller
(`packages/chat-component/src/components/chat-component.ts`, `ChatComponent`).

The component's reactive fields are embedded as an explicit `ChatState` record,
and each handler of the component becomes a pure state transformer.  The
`AbortController` is embedded as a record with a single `aborted` flag; a
handler that hands out or aborts a controller returns it explicitly.
-/

/-- Browser `AbortController`, reduced to the one observable bit used by the
component: whether `abort()` has been called on it. -/
structure AbortController where
  aborted : Bool
deriving DecidableEq, Repr

/-- The `data-interaction-model` attribute: `'ask' | 'chat'`. -/
inductive InteractionModel where
  | ask
  | chat
deriving DecidableEq, Repr

/-- A citation extracted from answer text: ordinal `ref` and the cited
document identifier `text`. -/
structure Citation where
  ref : Nat
  text : String
deriving DecidableEq, Repr

/-- One text segment of a chat bubble (`ChatMessageText`). -/
structure ChatMessageText where
  value : String
  followingSteps : List String
deriving DecidableEq, Repr

/-- A turn-level error: `{ message: string }`. -/
structure ChatMessageError where
  message : String
deriving DecidableEq, Repr

/-- One entry of the chat thread (`ChatThreadEntry`).  Fields the source
sometimes leaves `undefined` (citations / followupQuestions on an error-only
turn) are embedded as the empty list; no claim distinguishes the two. -/
structure ChatThreadEntry where
  text : List ChatMessageText
  citations : List Citation
  followupQuestions : List String
  timestamp : String
  isUserMessage : Bool
  error : Option ChatMessageError
deriving DecidableEq, Repr

/-- The slice of the global configuration the embedded handlers read. -/
structure GlobalConfig where
  API_ERROR_MESSAGE : String
  INVALID_REQUEST_ERROR : String
  IS_DEFAULT_PROMPTS_ENABLED : Bool
deriving DecidableEq, Repr

/-- Modelled from the spec: the global configuration module
(`config/global-config.js`) is not under src/; only the two user-facing error
messages and the default-prompts toggle are needed, and their exact values are
immaterial to every claim (the two messages are distinct strings). -/
def globalConfig : GlobalConfig :=
  { API_ERROR_MESSAGE := "Sorry, we are having some problems."
    INVALID_REQUEST_ERROR := "Invalid request sent to the API. Please try again."
    IS_DEFAULT_PROMPTS_ENABLED := true }

/-- The request the controller hands to the transport (`getAPIResponse`):
only the `question` and `type` fields are decided by the submit handler. -/
structure ChatRequestModel where
  question : String
  type : InteractionModel
deriving DecidableEq, Repr

/-- The component's observable state: its reactive properties, the chat
thread, and the current abort controller. -/
structure ChatState where
  interactionModel : InteractionModel
  useStream : Bool
  currentQuestion : String
  questionInputValue : String
  isDisabled : Bool
  isChatStarted : Bool
  isResetInput : Bool
  isAwaitingResponse : Bool
  hasAPIError : Bool
  isResponseCopied : Bool
  isShowingThoughtProcess : Bool
  canShowThoughtProcess : Bool
  isDefaultPromptsEnabled : Bool
  chatThread : List ChatThreadEntry
  chatThoughts : String
  chatDataPoints : List String
  isProcessingResponse : Bool
  abortController : AbortController
deriving DecidableEq, Repr

/-- The component's initial state, per the field initializers of
`ChatComponent` (empty thread, all flags down, fresh `AbortController`,
default prompts per global config). -/
def initState (im : InteractionModel) (us : Bool) : ChatState :=
  { interactionModel := im
    useStream := us
    currentQuestion := ""
    questionInputValue := ""
    isDisabled := false
    isChatStarted := false
    isResetInput := false
    isAwaitingResponse := false
    hasAPIError := false
    isResponseCopied := false
    isShowingThoughtProcess := false
    canShowThoughtProcess := false
    isDefaultPromptsEnabled := globalConfig.IS_DEFAULT_PROMPTS_ENABLED
    chatThread := []
    chatThoughts := ""
    chatDataPoints := []
    isProcessingResponse := false
    abortController := { aborted := false } }

/-- `collapseAside`: hides the thought-process panel (the DOM class toggles
have no further observable state). -/
def collapseAside (s : ChatState) : ChatState :=
  { s with isShowingThoughtProcess := false }

/-- `handleExpandAside`: shows the thought-process panel. -/
def handleExpandAside (s : ChatState) : ChatState :=
  { s with isShowingThoughtProcess := true }

/-- `setQuestionInputValue`: writes the sanitized value into the input field
and mirrors it into `currentQuestion`.  The sanitizer (DOMPurify) is an
external collaborator and is passed in as a function. -/
def setQuestionInputValue (sanitize : String → String) (value : String) (s : ChatState) : ChatState :=
  let v := sanitize value
  { s with questionInputValue := v, currentQuestion := v }

/-- First-seen deduplication with an explicit `seen` accumulator; used both
for the citation-extraction model and for the JS `Set` insertion order. -/
def firstSeenFrom {α : Type} [DecidableEq α] (seen : List α) : List α → List α
  | [] => []
  | a :: as => if a ∈ seen then firstSeenFrom seen as else a :: firstSeenFrom (a :: seen) as

/-- `[...new Set(citations)]` from `updateChatWithMessageOrChunk`.  JavaScript
`Set` keeps insertion order and deduplicates; the embedding works with
citation values, on which this is first-occurrence deduplication. -/
def dedupSet (cs : List Citation) : List Citation :=
  firstSeenFrom [] cs

/-- The non-chunk branch of `updateChatWithMessageOrChunk`: appends a finished
turn built from the given text and the extracted side-channel lists. -/
def updateChatWithMessageOrChunkFinal (part : String) (citations : List Citation)
    (followingSteps followupQuestions : List String) (timestamp : String)
    (isUserMessage : Bool) (s : ChatState) : ChatState :=
  { s with chatThread := s.chatThread ++
      [{ text := [{ value := part, followingSteps := followingSteps }]
         followupQuestions := followupQuestions
         citations := dedupSet citations
         timestamp := timestamp
         isUserMessage := isUserMessage
         error := none }] }

/-- The chunk branch of `updateChatWithMessageOrChunk`, up to the hand-off to
`parseStreamedMessages`: appends the empty open turn, raises
`isProcessingResponse`, and returns the `abortController` whose `signal` is
handed to the stream accumulator. -/
def updateChatWithChunkStart (timestamp : String) (isUserMessage : Bool) (s : ChatState) :
    ChatState × AbortController :=
  ({ s with
      chatThread := s.chatThread ++
        [{ text := [{ value := "", followingSteps := [] }]
           followupQuestions := []
           citations := []
           timestamp := timestamp
           isUserMessage := isUserMessage
           error := none }]
      isProcessingResponse := true },
   s.abortController)

/-- The chunk branch of `updateChatWithMessageOrChunk` after
`parseStreamedMessages` resolves: stores thoughts / data points, enables the
thought-process panel and lowers `isProcessingResponse`. -/
def finishStreamedResponse (thoughts : String) (dataPoints : List String) (s : ChatState) : ChatState :=
  { s with chatThoughts := thoughts
           chatDataPoints := dataPoints
           canShowThoughtProcess := true
           isProcessingResponse := false }

/-- Collects the bracketed citation-marker texts of a character stream in
marker order.  The second argument is `none` outside a marker and `some acc`
(reversed collected characters) inside one; an unterminated trailing marker
yields no further texts. -/
def scanAux : List Char → Option (List Char) → List String
  | [], _ => []
  | c :: rest, none =>
      if c = '[' then scanAux rest (some []) else scanAux rest none
  | c :: rest, some acc =>
      if c = ']' then String.mk acc.reverse :: scanAux rest none
      else scanAux rest (some (c :: acc))

/-- Removes complete bracketed citation markers from a character stream; an
unterminated trailing marker is left verbatim. -/
def stripAux : List Char → Option (List Char) → List Char
  | [], none => []
  | [], some acc => '[' :: acc.reverse
  | c :: rest, none =>
      if c = '[' then stripAux rest (some []) else c :: stripAux rest none
  | c :: rest, some acc =>
      if c = ']' then stripAux rest none else stripAux rest (some (c :: acc))

/-- The distinct citation texts of a marker sequence, in first-seen order. -/
def firstSeen (ts : List String) : List String :=
  firstSeenFrom [] ts

/-- Assigns consecutive ordinals starting at `n` to a list of distinct
citation texts. -/
def numberCitations : Nat → List String → List Citation
  | _, [] => []
  | n, t :: ts => { ref := n, text := t } :: numberCitations (n + 1) ts

/-- Citations of a marker-text sequence: repeats merged by text, each distinct
text numbered by its first-seen position (ordinals start at 1). -/
def extractCitations (ts : List String) : List Citation :=
  numberCitations 1 (firstSeen ts)

/-- Return shape of the Text Annotation Extractor. -/
structure ProcessTextReturn where
  replacedText : String
  citations : List Citation
  followingSteps : List String
  followupQuestions : List String
deriving DecidableEq, Repr

/-- Modelled from the spec: `processText` (the Text Annotation Extractor,
`utils/index.ts`) is not under src/; only its caller is.  Per the spec,
citation markers are bracketed tokens scanned in marker order, each distinct
citation text gets an ordinal `ref` by first-seen numbering with repeats
merged, and recognized markers are stripped from the cleaned text while an
unterminated marker is left verbatim.  The spec fixes no concrete marker
syntax for the step and follow-up conventions and no claim exercises them, so
this model extracts none. -/
def processText (input : String) : ProcessTextReturn :=
  { replacedText := String.mk (stripAux input.data none)
    citations := extractCitations (scanAux input.data none)
    followingSteps := []
    followupQuestions := [] }

/-- Removes angle-bracketed tag-like segments from a character stream. -/
def stripTagsAux : List Char → Bool → List Char
  | [], _ => []
  | c :: rest, false =>
      if c = '<' then stripTagsAux rest true else c :: stripTagsAux rest false
  | c :: rest, true =>
      if c = '>' then stripTagsAux rest false else stripTagsAux rest true

/-- Modelled from the spec: the Sanitizer collaborator (`DOMPurify.sanitize`)
strips unsafe markup from user-supplied text; it is the identity on
markup-free text and in particular preserves whitespace. -/
def sanitizeModel (input : String) : String :=
  String.mk (stripTagsAux input.data false)

/-- A string all of whose characters are whitespace. -/
def whitespaceOnly (s : String) : Bool :=
  s.data.all Char.isWhitespace

/-- The user branch of `processApiResponse` (`isUserMessage` true): appends
the user's message with the still-empty side-channel lists. -/
def processApiResponseUser (message timestamp : String) (s : ChatState) : ChatState :=
  updateChatWithMessageOrChunkFinal message [] [] [] timestamp true s

/-- The non-streamed bot branch of `processApiResponse`: runs the extractor
over the final message content and appends the finished assistant turn. -/
def processApiResponseBotNonStreamed (message timestamp : String) (s : ChatState) : ChatState :=
  let p := processText message
  updateChatWithMessageOrChunkFinal p.replacedText p.citations p.followingSteps
    p.followupQuestions timestamp false s

/-- `handleUserChatSubmit` up to the transport call: collapse the aside,
sanitize the input, reject an empty question, otherwise raise the submission
flags, echo the question into the thread in conversational mode, and produce
the request handed to `getAPIResponse`. -/
def handleUserChatSubmitPhase1 (sanitize : String → String) (timestamp : String)
    (s : ChatState) : ChatState × Option ChatRequestModel :=
  let s0 := collapseAside s
  let question := sanitize s0.questionInputValue
  if question = "" then (s0, none)
  else
    let s1 := { s0 with
      currentQuestion := question
      isChatStarted := true
      isDefaultPromptsEnabled := false
      isDisabled := true
      hasAPIError := false
      isAwaitingResponse := true }
    let s2 := if s1.interactionModel = InteractionModel.chat
      then processApiResponseUser question timestamp s1 else s1
    (s2, some { question := question, type := s1.interactionModel })

/-- `handleUserChatSubmit` immediately after `getAPIResponse` resolves:
clears the input and lowers the awaiting / disabled / reset-input flags. -/
def afterTransportSuccess (s : ChatState) : ChatState :=
  { s with questionInputValue := ""
           isAwaitingResponse := false
           isDisabled := false
           isResetInput := false }

/-- The non-streamed thought-process read of `handleUserChatSubmit`
(`context?.thoughts ?? ''`, `context?.data_points ?? []`). -/
def readNonStreamedContext (thoughts : Option String) (dataPoints : Option (List String))
    (s : ChatState) : ChatState :=
  { s with chatThoughts := thoughts.getD ""
           chatDataPoints := dataPoints.getD []
           canShowThoughtProcess := true }

/-- The whole successful non-streamed exchange: phase one, then the
post-transport flag updates, the context read, and the assistant turn. -/
def submitExchangeNonStreamed (sanitize : String → String) (tsUser tsBot : String)
    (content : String) (thoughts : Option String) (dataPoints : Option (List String))
    (s : ChatState) : ChatState × Option ChatRequestModel :=
  match handleUserChatSubmitPhase1 sanitize tsUser s with
  | (s1, none) => (s1, none)
  | (s1, some req) =>
      let s2 := afterTransportSuccess s1
      let s3 := readNonStreamedContext thoughts dataPoints s2
      (processApiResponseBotNonStreamed content tsBot s3, some req)

/-- The error message of the catch block of `handleUserChatSubmit`:
status 400 maps to the invalid-request message, everything else to the
generic API-error message. -/
def mkChatError (code : Option Nat) : ChatMessageError :=
  { message := if code = some 400 then globalConfig.INVALID_REQUEST_ERROR
               else globalConfig.API_ERROR_MESSAGE }

/-- Writes an error onto the last entry of a thread (`chatThread.at(-1)`). -/
def setErrorOnLast (e : ChatMessageError) : List ChatThreadEntry → List ChatThreadEntry
  | [] => []
  | [t] => [{ t with error := some e }]
  | t :: rest => t :: setErrorOnLast e rest

/-- The fresh turn carrying only an error that the catch block appends when no
open turn exists. -/
def errorTurn (timestamp : String) (e : ChatMessageError) : ChatThreadEntry :=
  { text := []
    citations := []
    followupQuestions := []
    timestamp := timestamp
    isUserMessage := false
    error := some e }

/-- `handleAPIError`: raises the error flag and re-enables submission. -/
def handleAPIError (s : ChatState) : ChatState :=
  { s with hasAPIError := true
           isDisabled := false
           isAwaitingResponse := false
           isProcessingResponse := false }

/-- The catch block of `handleUserChatSubmit`: map the status code to a
message, record it on the open in-progress turn when one exists
(`isProcessingResponse && chatThread.at(-1)`), otherwise append a fresh
error-only turn; then run `handleAPIError`. -/
def recordExchangeError (code : Option Nat) (timestamp : String) (s : ChatState) : ChatState :=
  let chatError := mkChatError code
  let s1 :=
    if s.isProcessingResponse && !s.chatThread.isEmpty then
      { s with chatThread := setErrorOnLast chatError s.chatThread }
    else
      { s with chatThread := s.chatThread ++ [errorTurn timestamp chatError] }
  handleAPIError s1

/-- `handleUserChatCancel`: lowers `isProcessingResponse`, aborts the current
controller, and replaces it with a fresh one.  The second component is the
old controller after `abort()` — the one whose signal any in-flight stream
read is holding. -/
def handleUserChatCancel (s : ChatState) : ChatState × AbortController :=
  ({ s with isProcessingResponse := false, abortController := { aborted := false } },
   { s.abortController with aborted := true })

/-- `resetCurrentChat`: clears the thread and the chat flags, re-enables the
default prompts, collapses the aside, then runs `handleUserChatCancel`. -/
def resetCurrentChat (s : ChatState) : ChatState × AbortController :=
  handleUserChatCancel (collapseAside
    { s with isChatStarted := false
             chatThread := []
             isDisabled := false
             isDefaultPromptsEnabled := true
             isResponseCopied := false })

/-- `showDefaultPrompts`: a full reset when the prompts are hidden. -/
def showDefaultPrompts (s : ChatState) : ChatState × Option AbortController :=
  if s.isDefaultPromptsEnabled then (s, none)
  else
    let r := resetCurrentChat s
    (r.1, some r.2)

/-- `resetInputField`: clears the input and the current question. -/
def resetInputField (s : ChatState) : ChatState :=
  { s with questionInputValue := ""
           currentQuestion := ""
           isResetInput := false }

/-- `handleOnInputChange`: `isResetInput = !!questionInput.value`. -/
def handleOnInputChange (s : ChatState) : ChatState :=
  { s with isResetInput := !s.questionInputValue.isEmpty }

/-- `copyResponseToClipboard`: records that the response was copied. -/
def copyResponseToClipboard (s : ChatState) : ChatState :=
  { s with isResponseCopied := true }

/-- The button rendered in the chat box (`renderChatOrCancelButton`): the
cancel button while a response is being processed, otherwise the submit
button carrying the disabled flag. -/
inductive RenderedButton where
  | submitButton (disabled : Bool)
  | cancelButton
deriving DecidableEq, Repr

/-- `renderChatOrCancelButton`. -/
def renderChatOrCancelButton (s : ChatState) : RenderedButton :=
  if s.isProcessingResponse then RenderedButton.cancelButton
  else RenderedButton.submitButton s.isDisabled

/-- A user click on the chat-box button: the cancel button runs
`handleUserChatCancel`, a disabled submit button delivers no event, and an
enabled submit button runs `handleUserChatSubmit` (phase one).  The second
component is the request dispatched to the transport, if any. -/
def clickChatButton (sanitize : String → String) (timestamp : String) (s : ChatState) :
    ChatState × Option ChatRequestModel :=
  match renderChatOrCancelButton s with
  | RenderedButton.cancelButton => ((handleUserChatCancel s).1, none)
  | RenderedButton.submitButton true => (s, none)
  | RenderedButton.submitButton false => handleUserChatSubmitPhase1 sanitize timestamp s

/-- One observable step of the component: any handler, any phase of the
submit flow, or an arbitrary thread rewrite by the stream parser (which
mutates thread entries in place but never touches the controller). -/
inductive Step : ChatState → ChatState → Prop where
  | submit (s : ChatState) (sanitize : String → String) (ts : String) :
      Step s (handleUserChatSubmitPhase1 sanitize ts s).1
  | transportOk (s : ChatState) : Step s (afterTransportSuccess s)
  | nonStreamContext (s : ChatState) (th : Option String) (dp : Option (List String)) :
      Step s (readNonStreamedContext th dp s)
  | botMessage (s : ChatState) (msg ts : String) :
      Step s (processApiResponseBotNonStreamed msg ts s)
  | userMessage (s : ChatState) (msg ts : String) :
      Step s (processApiResponseUser msg ts s)
  | chunkStart (s : ChatState) (ts : String) (u : Bool) :
      Step s (updateChatWithChunkStart ts u s).1
  | streamChunkApplied (s : ChatState) (t : List ChatThreadEntry) :
      Step s { s with chatThread := t }
  | streamDone (s : ChatState) (th : String) (dp : List String) :
      Step s (finishStreamedResponse th dp s)
  | errorCaught (s : ChatState) (code : Option Nat) (ts : String) :
      Step s (recordExchangeError code ts s)
  | cancel (s : ChatState) : Step s (handleUserChatCancel s).1
  | reset (s : ChatState) : Step s (resetCurrentChat s).1
  | setInput (s : ChatState) (sanitize : String → String) (v : String) :
      Step s (setQuestionInputValue sanitize v s)
  | inputChange (s : ChatState) : Step s (handleOnInputChange s)
  | clearInput (s : ChatState) : Step s (resetInputField s)
  | collapse (s : ChatState) : Step s (collapseAside s)
  | expand (s : ChatState) : Step s (handleExpandAside s)
  | copy (s : ChatState) : Step s (copyResponseToClipboard s)

/-- A component state reachable from the initial state by handler steps. -/
def Reachable (im : InteractionModel) (us : Bool) (s : ChatState) : Prop :=
  Relation.ReflTransGen Step (initState im us) s

/-- The user turn appended by a conversational-mode submission. -/
def userTurnEntry (question timestamp : String) : ChatThreadEntry :=
  { text := [{ value := question, followingSteps := [] }]
    citations := []
    followupQuestions := []
    timestamp := timestamp
    isUserMessage := true
    error := none }

/-- The assistant turn appended by the non-streamed response path. -/
def botTurnEntryNonStreamed (content timestamp : String) : ChatThreadEntry :=
  { text := [{ value := (processText content).replacedText
               followingSteps := (processText content).followingSteps }]
    citations := dedupSet (processText content).citations
    followupQuestions := (processText content).followupQuestions
    timestamp := timestamp
    isUserMessage := false
    error := none }

/-- A state with the given text typed into the question input. -/
def withInput (v : String) (s : ChatState) : ChatState :=
  { s with questionInputValue := v }

/-- The state right after the submit handler raises its submission flags:
aside collapsed, default prompts hidden, input disabled, loading shown. -/
def submitFlagsSet (question : String) (s : ChatState) : ChatState :=
  { s with isShowingThoughtProcess := false
           currentQuestion := question
           isChatStarted := true
           isDefaultPromptsEnabled := false
           isDisabled := true
           hasAPIError := false
           isAwaitingResponse := true }

theorem mem_firstSeenFrom_of {α : Type} [DecidableEq α] (l : List α) :
    ∀ (seen : List α) (a : α), a ∈ l → a ∉ seen → a ∈ firstSeenFrom seen l := by
  induction l with
  | nil => intro seen a h; cases h
  | cons b l ih =>
    intro seen a hmem hseen
    rcases List.mem_cons.mp hmem with rfl | h
    · rw [firstSeenFrom, if_neg hseen]
      exact List.mem_cons_self _ _
    · by_cases hb : b ∈ seen
      · rw [firstSeenFrom, if_pos hb]; exact ih seen a h hseen
      · rw [firstSeenFrom, if_neg hb]
        by_cases hab : a = b
        · subst hab; exact List.mem_cons_self _ _
        · refine List.mem_cons_of_mem _ (ih _ a h ?_)
          simp only [List.mem_cons, not_or]
          exact ⟨hab, hseen⟩

theorem not_mem_seen_of_mem_firstSeenFrom {α : Type} [DecidableEq α] (l : List α) :
    ∀ (seen : List α) (a : α), a ∈ firstSeenFrom seen l → a ∉ seen := by
  induction l with
  | nil => intro seen a h; simp [firstSeenFrom] at h
  | cons b l ih =>
    intro seen a h
    by_cases hb : b ∈ seen
    · rw [firstSeenFrom, if_pos hb] at h; exact ih seen a h
    · rw [firstSeenFrom, if_neg hb] at h
      rcases List.mem_cons.mp h with rfl | h
      · exact hb
      · intro hs
        exact ih _ a h (List.mem_cons_of_mem _ hs)

theorem nodup_firstSeenFrom {α : Type} [DecidableEq α] (l : List α) :
    ∀ seen : List α, (firstSeenFrom seen l).Nodup := by
  induction l with
  | nil => intro _; simp [firstSeenFrom]
  | cons b l ih =>
    intro seen
    by_cases hb : b ∈ seen
    · rw [firstSeenFrom, if_pos hb]; exact ih seen
    · rw [firstSeenFrom, if_neg hb]
      refine List.nodup_cons.mpr ⟨fun hmem => ?_, ih _⟩
      exact (not_mem_seen_of_mem_firstSeenFrom l _ b hmem) (List.mem_cons_self _ _)

theorem firstSeenFrom_eq_self {α : Type} [DecidableEq α] (l : List α) :
    ∀ seen : List α, l.Nodup → (∀ a ∈ l, a ∉ seen) → firstSeenFrom seen l = l := by
  induction l with
  | nil => intro seen _ _; rfl
  | cons b l ih =>
    intro seen hnd hd
    have hb : b ∉ seen := hd b (List.mem_cons_self _ _)
    rw [firstSeenFrom, if_neg hb]
    congr 1
    refine ih _ (List.nodup_cons.mp hnd).2 ?_
    intro a ha
    have hab : a ≠ b := fun h => (List.nodup_cons.mp hnd).1 (h ▸ ha)
    simp only [List.mem_cons, not_or]
    exact ⟨hab, hd a (List.mem_cons_of_mem _ ha)⟩

theorem numberCitations_map_text (n : Nat) (l : List String) :
    (numberCitations n l).map Citation.text = l := by
  induction l generalizing n with
  | nil => rfl
  | cons t ts ih => simp [numberCitations, ih]

theorem numberCitations_nodup (n : Nat) (l : List String) (h : l.Nodup) :
    (numberCitations n l).Nodup :=
  List.Nodup.of_map Citation.text (by rw [numberCitations_map_text]; exact h)

theorem numberCitations_ref (l : List String) :
    ∀ (n : Nat) (c : Citation), c ∈ numberCitations n l → l.Nodup →
      c.ref = n + l.indexOf c.text ∧ c.text ∈ l := by
  induction l with
  | nil => intro n c h; simp [numberCitations] at h
  | cons t ts ih =>
    intro n c hc hnd
    rcases List.mem_cons.mp hc with rfl | hc
    · refine ⟨?_, List.mem_cons_self _ _⟩
      simp [List.indexOf_cons_self]
    · obtain ⟨h1, h2⟩ := ih (n + 1) c hc (List.nodup_cons.mp hnd).2
      have hne : t ≠ c.text := by
        intro h
        exact (List.nodup_cons.mp hnd).1 (h ▸ h2)
      refine ⟨?_, List.mem_cons_of_mem _ h2⟩
      rw [h1, List.indexOf_cons_ne ts hne]
      omega

theorem numberCitations_filter_nil (l : List String) :
    ∀ (n : Nat) (a : String), a ∉ l →
      (numberCitations n l).filter (fun c => c.text == a) = [] := by
  induction l with
  | nil => intro n a _; rfl
  | cons t ts ih =>
    intro n a ha
    simp only [List.mem_cons, not_or] at ha
    obtain ⟨hat, hats⟩ := ha
    simp only [numberCitations, List.filter_cons]
    have hta : (t == a) = false := beq_eq_false_iff_ne.mpr fun h => hat h.symm
    simp only [hta, Bool.false_eq_true, if_false]
    exact ih (n + 1) a hats

theorem numberCitations_filter_one (l : List String) :
    ∀ (n : Nat) (a : String), l.Nodup → a ∈ l →
      ((numberCitations n l).filter (fun c => c.text == a)).length = 1 := by
  induction l with
  | nil => intro n a _ h; cases h
  | cons t ts ih =>
    intro n a hnd ha
    rcases List.mem_cons.mp ha with rfl | ha
    · simp only [numberCitations, List.filter_cons, beq_self_eq_true, if_true]
      rw [numberCitations_filter_nil ts (n + 1) a (List.nodup_cons.mp hnd).1]
      rfl
    · have hta : (t == a) = false := beq_eq_false_iff_ne.mpr
        fun h => (List.nodup_cons.mp hnd).1 (h ▸ ha)
      simp only [numberCitations, List.filter_cons, hta, Bool.false_eq_true, if_false]
      exact ih (n + 1) a (List.nodup_cons.mp hnd).2 ha

theorem extractCitations_nodup (ts : List String) : (extractCitations ts).Nodup :=
  numberCitations_nodup 1 (firstSeen ts) (nodup_firstSeenFrom ts [])

theorem dedupSet_eq_of_nodup (cs : List Citation) (h : cs.Nodup) : dedupSet cs = cs :=
  firstSeenFrom_eq_self cs [] h (fun a _ => List.not_mem_nil a)

theorem setErrorOnLast_concat (e : ChatMessageError) (l : List ChatThreadEntry)
    (t : ChatThreadEntry) :
    setErrorOnLast e (l ++ [t]) = l ++ [{ t with error := some e }] := by
  induction l with
  | nil => rfl
  | cons x xs ih =>
    cases xs with
    | nil => simp [setErrorOnLast]
    | cons y ys =>
      simp only [List.cons_append, setErrorOnLast, List.append_eq] at ih ⊢
      rw [ih]

theorem phase1_abortController (sanitize : String → String) (ts : String) (s : ChatState) :
    (handleUserChatSubmitPhase1 sanitize ts s).1.abortController = s.abortController := by
  unfold handleUserChatSubmitPhase1
  dsimp only
  split
  · rfl
  · dsimp only
    split <;> rfl

theorem step_controller_fresh {s s' : ChatState} (h : Step s s')
    (hs : s.abortController.aborted = false) : s'.abortController.aborted = false := by
  cases h with
  | submit sanitize ts => rw [phase1_abortController]; exact hs
  | transportOk => exact hs
  | nonStreamContext th dp => exact hs
  | botMessage msg ts => exact hs
  | userMessage msg ts => exact hs
  | chunkStart ts u => exact hs
  | streamChunkApplied t => exact hs
  | streamDone th dp => exact hs
  | errorCaught code ts =>
      unfold recordExchangeError handleAPIError
      dsimp only
      split <;> exact hs
  | cancel => rfl
  | reset => rfl
  | setInput sanitize v => exact hs
  | inputChange => exact hs
  | clearInput => exact hs
  | collapse => exact hs
  | expand => exact hs
  | copy => exact hs

theorem reachable_controller_fresh (im : InteractionModel) (us : Bool) (s : ChatState)
    (h : Reachable im us s) : s.abortController.aborted = false := by
  induction h with
  | refl => rfl
  | tail _ hstep ih => exact step_controller_fresh hstep ih

theorem phase1_of_empty (sanitize : String → String) (ts : String) (s : ChatState)
    (h : sanitize s.questionInputValue = "") :
    handleUserChatSubmitPhase1 sanitize ts s = (collapseAside s, none) := by
  simp [handleUserChatSubmitPhase1, collapseAside, h]

theorem phase1_of_ne (sanitize : String → String) (ts : String) (s : ChatState)
    (hne : sanitize s.questionInputValue ≠ "") :
    handleUserChatSubmitPhase1 sanitize ts s
      = ((if s.interactionModel = InteractionModel.chat
            then processApiResponseUser (sanitize s.questionInputValue) ts
              (submitFlagsSet (sanitize s.questionInputValue) s)
            else submitFlagsSet (sanitize s.questionInputValue) s),
         some { question := sanitize s.questionInputValue, type := s.interactionModel }) := by
  unfold handleUserChatSubmitPhase1
  dsimp only [collapseAside]
  rw [if_neg hne]
  dsimp only [submitFlagsSet]

/-- C7: Cancellation is a normal termination path, never a failure:
`handleUserChatCancel` clears the processing-response flag and aborts the
in-flight controller, but leaves the API-error flag exactly as it was and
leaves the chat thread — hence every turn's `error` field — untouched. -/
theorem c7_cancellation_is_not_failure (s : ChatState) :
    (handleUserChatCancel s).1.isProcessingResponse = false
    ∧ (handleUserChatCancel s).2.aborted = true
    ∧ (handleUserChatCancel s).1.hasAPIError = s.hasAPIError
    ∧ (handleUserChatCancel s).1.chatThread = s.chatThread :=
  ⟨rfl, rfl, rfl, rfl⟩

/-- C9: `resetCurrentChat` clears the whole thread, re-enables the input and
the default prompts, resets the response-copied flag, and ends by running the
very same cancellation path as an explicit cancel (`handleUserChatCancel`),
aborting any in-flight streamed exchange. -/
theorem c9_full_reset (s : ChatState) :
    (resetCurrentChat s).1.chatThread = []
    ∧ (resetCurrentChat s).1.isDisabled = false
    ∧ (resetCurrentChat s).1.isDefaultPromptsEnabled = true
    ∧ (resetCurrentChat s).1.isResponseCopied = false
    ∧ (resetCurrentChat s).1.isChatStarted = false
    ∧ (resetCurrentChat s).1.isProcessingResponse = false
    ∧ (resetCurrentChat s).2.aborted = true
    ∧ resetCurrentChat s = handleUserChatCancel (collapseAside
        { s with isChatStarted := false
                 chatThread := []
                 isDisabled := false
                 isDefaultPromptsEnabled := true
                 isResponseCopied := false }) :=
  ⟨rfl, rfl, rfl, rfl, rfl, rfl, rfl, rfl⟩

/-- C5: On a transport failure the message recorded on the failed turn (the
last turn of the resulting thread) is the invalid-request message exactly for
status code 400 and the generic API-error message otherwise, and the session
returns to idle: disabled, awaiting-response and processing-response flags
cleared, error flag raised. -/
theorem c5_error_message_and_idle (code : Option Nat) (ts : String) (s : ChatState) :
    ∃ t, (recordExchangeError code ts s).chatThread.getLast? = some t
      ∧ t.error = some { message := if code = some 400
            then globalConfig.INVALID_REQUEST_ERROR else globalConfig.API_ERROR_MESSAGE }
      ∧ (recordExchangeError code ts s).isDisabled = false
      ∧ (recordExchangeError code ts s).isAwaitingResponse = false
      ∧ (recordExchangeError code ts s).isProcessingResponse = false
      ∧ (recordExchangeError code ts s).hasAPIError = true := by
  unfold recordExchangeError handleAPIError
  dsimp only
  split
  · rename_i hcond
    rcases List.eq_nil_or_concat s.chatThread with hnil | ⟨l, t, hconcat⟩
    · rw [hnil] at hcond; simp at hcond
    · rw [List.concat_eq_append] at hconcat
      rw [hconcat, setErrorOnLast_concat]
      exact ⟨{ t with error := some (mkChatError code) },
        List.getLast?_concat l, rfl, rfl, rfl, rfl, rfl⟩
  · exact ⟨errorTurn ts (mkChatError code), List.getLast?_concat _, rfl, rfl, rfl, rfl, rfl⟩

/-- C1: When the transport call or response processing raises an error, the
catch block records the mapped error on the currently open in-progress turn
when a streamed response is being processed and the thread is non-empty
(leaving every other turn unchanged), and otherwise appends a single new turn
carrying only the error. -/
theorem c1_error_recording (code : Option Nat) (ts : String) (s : ChatState) :
    (s.isProcessingResponse = true →
      ∀ (front : List ChatThreadEntry) (t : ChatThreadEntry),
        s.chatThread = front ++ [t] →
        (recordExchangeError code ts s).chatThread
          = front ++ [{ t with error := some (mkChatError code) }])
    ∧ ((s.isProcessingResponse = false ∨ s.chatThread = []) →
        (recordExchangeError code ts s).chatThread
          = s.chatThread ++ [errorTurn ts (mkChatError code)]) := by
  constructor
  · intro hp front t hft
    have hcond : (s.isProcessingResponse && !s.chatThread.isEmpty) = true := by
      rw [hp, hft]; simp
    unfold recordExchangeError handleAPIError
    dsimp only
    rw [if_pos hcond, hft, setErrorOnLast_concat]
  · intro hcase
    have hcond : (s.isProcessingResponse && !s.chatThread.isEmpty) = false := by
      rcases hcase with h | h
      · rw [h]; simp
      · rw [h]; simp
    unfold recordExchangeError handleAPIError
    dsimp only
    rw [hcond]
    simp

/-- C1 witness: a concrete streamed exchange with one open turn receives the
error in place. -/
theorem c1_error_recording_witness :
    (recordExchangeError (some 500) "t1"
        { initState InteractionModel.chat true with
            isProcessingResponse := true
            chatThread := [userTurnEntry "q" "t0"] }).chatThread
      = [] ++ [{ userTurnEntry "q" "t0" with error := some (mkChatError (some 500)) }] :=
  (c1_error_recording (some 500) "t1" _).1 rfl [] (userTurnEntry "q" "t0") rfl

/-- C2 (amended): A submission whose question text is the empty string after
sanitizing is a no-op: it is rejected before dispatch, the chat thread is not
mutated, and the transport is never called (only the thought-process aside is
collapsed).  A whitespace-only but non-empty sanitized question is not
rejected — see the counterexample. -/
theorem c2_empty_question_rejected (sanitize : String → String) (ts : String)
    (s : ChatState) (h : sanitize s.questionInputValue = "") :
    (handleUserChatSubmitPhase1 sanitize ts s).2 = none
    ∧ (handleUserChatSubmitPhase1 sanitize ts s).1.chatThread = s.chatThread
    ∧ handleUserChatSubmitPhase1 sanitize ts s = (collapseAside s, none) := by
  rw [phase1_of_empty sanitize ts s h]
  exact ⟨rfl, rfl, rfl⟩

/-- C2 witness: the empty input is rejected without touching the thread. -/
theorem c2_empty_question_rejected_witness :
    (handleUserChatSubmitPhase1 sanitizeModel "t0" (initState InteractionModel.chat true)).2 = none
    ∧ (handleUserChatSubmitPhase1 sanitizeModel "t0"
        (initState InteractionModel.chat true)).1.chatThread
      = (initState InteractionModel.chat true).chatThread :=
  ⟨(c2_empty_question_rejected sanitizeModel "t0"
      (initState InteractionModel.chat true) (by decide)).1,
   (c2_empty_question_rejected sanitizeModel "t0"
      (initState InteractionModel.chat true) (by decide)).2.1⟩

/-- C2 counterexample: the space-only question `" "` survives sanitizing as a
non-empty whitespace-only string, so the claim's "empty or whitespace-only"
rejection fails: the submission is dispatched to the transport and, in
conversational mode, the thread gains a user turn. -/
theorem c2_counterexample :
    whitespaceOnly (sanitizeModel " ") = true
    ∧ sanitizeModel " " ≠ ""
    ∧ (handleUserChatSubmitPhase1 sanitizeModel "t0"
        (withInput " " (initState InteractionModel.chat true))).2
        = some { question := " ", type := InteractionModel.chat }
    ∧ (handleUserChatSubmitPhase1 sanitizeModel "t0"
        (withInput " " (initState InteractionModel.chat true))).1.chatThread
        ≠ (withInput " " (initState InteractionModel.chat true)).chatThread := by
  refine ⟨by decide, by decide, by decide, by decide⟩

/-- C3: At most one exchange is in flight at a time.  A valid submission
raises the disabled flag for the whole transport await, entering stream
processing raises the processing flag, and while either flag is up no second
submission can be dispatched through the chat-box button: a disabled submit
button delivers no event at all, and during stream processing the rendered
button is the cancel button, so a click dispatches no request and leaves the
chat thread untouched. -/
theorem c3_single_exchange_guard (sanitize : String → String) (ts : String) (s : ChatState) :
    (∀ (s1 : ChatState) (req : ChatRequestModel),
        handleUserChatSubmitPhase1 sanitize ts s = (s1, some req) → s1.isDisabled = true)
    ∧ (updateChatWithChunkStart ts false s).1.isProcessingResponse = true
    ∧ (s.isDisabled = true → s.isProcessingResponse = false →
        clickChatButton sanitize ts s = (s, none))
    ∧ (s.isProcessingResponse = true →
        (clickChatButton sanitize ts s).2 = none
        ∧ (clickChatButton sanitize ts s).1.chatThread = s.chatThread) := by
  refine ⟨?_, rfl, ?_, ?_⟩
  · intro s1 req h
    by_cases hq : sanitize s.questionInputValue = ""
    · rw [phase1_of_empty sanitize ts s hq] at h
      exact absurd (congrArg Prod.snd h) (by simp)
    · rw [phase1_of_ne sanitize ts s hq] at h
      have hs1 := congrArg Prod.fst h
      dsimp only at hs1
      rw [← hs1]
      split
      · rfl
      · rfl
  · intro hd hp
    simp [clickChatButton, renderChatOrCancelButton, hd, hp]
  · intro hp
    constructor
    · simp [clickChatButton, renderChatOrCancelButton, hp]
    · simp [clickChatButton, renderChatOrCancelButton, hp, handleUserChatCancel]

/-- C3 witness: a click while the submit button is disabled is a no-op. -/
theorem c3_single_exchange_guard_witness :
    clickChatButton sanitizeModel "t0"
        { initState InteractionModel.chat true with isDisabled := true }
      = ({ initState InteractionModel.chat true with isDisabled := true }, none) :=
  (c3_single_exchange_guard sanitizeModel "t0"
      { initState InteractionModel.chat true with isDisabled := true }).2.2.1 rfl rfl

/-- C4: The citations attached to an appended assistant turn are deduplicated
by citation text: for every input whose citation markers repeat a text, the
appended turn carries exactly one citation entry for that text, and every
citation on the turn keeps the ordinal ref of its text's first-seen position
among the distinct marker texts. -/
theorem c4_citation_dedup (input timestamp a : String) (s : ChatState)
    (h : 2 ≤ (scanAux input.data none).count a) :
    ∃ t, (processApiResponseBotNonStreamed input timestamp s).chatThread.getLast? = some t
      ∧ (t.citations.filter (fun c => c.text == a)).length = 1
      ∧ ∀ c ∈ t.citations,
          c.ref = (firstSeen (scanAux input.data none)).indexOf c.text + 1 := by
  have hmem : a ∈ scanAux input.data none := List.count_pos_iff.mp (by omega)
  have hmem1 : a ∈ firstSeen (scanAux input.data none) :=
    mem_firstSeenFrom_of _ [] a hmem (List.not_mem_nil a)
  have hnodup : (firstSeen (scanAux input.data none)).Nodup := nodup_firstSeenFrom _ []
  unfold processApiResponseBotNonStreamed updateChatWithMessageOrChunkFinal
  dsimp only [processText]
  rw [dedupSet_eq_of_nodup _ (extractCitations_nodup _)]
  refine ⟨_, List.getLast?_concat _, ?_, ?_⟩
  · dsimp only [extractCitations]
    exact numberCitations_filter_one _ 1 a hnodup hmem1
  · dsimp only [extractCitations]
    intro c hc
    obtain ⟨h1, _⟩ := numberCitations_ref _ 1 c hc hnodup
    omega

/-- C4 witness: `"x [a.md] y [b.md] z [a.md]"` repeats the marker `a.md`;
the appended assistant turn carries it once, with first-seen refs. -/
theorem c4_citation_dedup_witness :
    2 ≤ (scanAux "x [a.md] y [b.md] z [a.md]".data none).count "a.md"
    ∧ ∃ t, (processApiResponseBotNonStreamed "x [a.md] y [b.md] z [a.md]" "t0"
          (initState InteractionModel.chat false)).chatThread.getLast? = some t
        ∧ (t.citations.filter (fun c => c.text == "a.md")).length = 1
        ∧ ∀ c ∈ t.citations,
            c.ref = (firstSeen (scanAux "x [a.md] y [b.md] z [a.md]".data none)).indexOf c.text + 1 :=
  ⟨by decide, c4_citation_dedup "x [a.md] y [b.md] z [a.md]" "t0" "a.md" _ (by decide)⟩

/-- C6: A valid submission in conversational mode appends the user turn to the
thread already in phase one, before any response processing, and the full
non-streamed exchange leaves the thread extended by exactly the user turn and
the assistant turn; in single-turn ask mode phase one leaves the thread
untouched and the exchange adds only the assistant turn. -/
theorem c6_user_turn_echo (sanitize : String → String) (tsUser tsBot content : String)
    (thoughts : Option String) (dataPoints : Option (List String)) (s : ChatState)
    (hne : sanitize s.questionInputValue ≠ "") :
    (s.interactionModel = InteractionModel.chat →
        (handleUserChatSubmitPhase1 sanitize tsUser s).1.chatThread
          = s.chatThread ++ [userTurnEntry (sanitize s.questionInputValue) tsUser]
        ∧ (submitExchangeNonStreamed sanitize tsUser tsBot content thoughts dataPoints s).1.chatThread
          = s.chatThread ++ [userTurnEntry (sanitize s.questionInputValue) tsUser,
              botTurnEntryNonStreamed content tsBot])
    ∧ (s.interactionModel = InteractionModel.ask →
        (handleUserChatSubmitPhase1 sanitize tsUser s).1.chatThread = s.chatThread
        ∧ (submitExchangeNonStreamed sanitize tsUser tsBot content thoughts dataPoints s).1.chatThread
          = s.chatThread ++ [botTurnEntryNonStreamed content tsBot]) := by
  have hp := phase1_of_ne sanitize tsUser s hne
  constructor
  · intro him
    constructor
    · rw [hp, if_pos him]
      simp [processApiResponseUser, updateChatWithMessageOrChunkFinal, submitFlagsSet,
        userTurnEntry, dedupSet, firstSeenFrom]
    · unfold submitExchangeNonStreamed
      rw [hp, if_pos him]
      dsimp only
      simp [processApiResponseBotNonStreamed, processApiResponseUser,
        updateChatWithMessageOrChunkFinal, readNonStreamedContext, afterTransportSuccess,
        submitFlagsSet, userTurnEntry, botTurnEntryNonStreamed, dedupSet, firstSeenFrom,
        processText]
  · intro him
    have hne2 : s.interactionModel ≠ InteractionModel.chat := by
      rw [him]
      intro hcontra
      cases hcontra
    constructor
    · rw [hp, if_neg hne2]
      rfl
    · unfold submitExchangeNonStreamed
      rw [hp, if_neg hne2]
      dsimp only
      simp [processApiResponseBotNonStreamed, updateChatWithMessageOrChunkFinal,
        readNonStreamedContext, afterTransportSuccess, submitFlagsSet,
        botTurnEntryNonStreamed, processText]

/-- C6 witness: in conversational mode, submitting `"hi"` appends the user
turn during phase one. -/
theorem c6_user_turn_echo_witness :
    (handleUserChatSubmitPhase1 sanitizeModel "t1"
        (withInput "hi" (initState InteractionModel.chat false))).1.chatThread
      = (withInput "hi" (initState InteractionModel.chat false)).chatThread
          ++ [userTurnEntry (sanitizeModel "hi") "t1"] :=
  ((c6_user_turn_echo sanitizeModel "t1" "t2" "ans" none none
      (withInput "hi" (initState InteractionModel.chat false)) (by decide)).1 rfl).1

/-- C8: The question dispatched in the transport request, the mirrored
`currentQuestion`, and (in conversational mode) the echoed user turn all
carry exactly the sanitizer's output on the raw input, both on submission and
when the input field is populated through `setQuestionInputValue` (typed,
voice-dictated, or teaser-clicked text). -/
theorem c8_only_sanitized_text (sanitize : String → String) (ts v : String) (s : ChatState) :
    (∀ (s1 : ChatState) (req : ChatRequestModel),
        handleUserChatSubmitPhase1 sanitize ts s = (s1, some req) →
        req.question = sanitize s.questionInputValue
        ∧ s1.currentQuestion = sanitize s.questionInputValue
        ∧ (s.interactionModel = InteractionModel.chat →
            s1.chatThread = s.chatThread ++ [userTurnEntry (sanitize s.questionInputValue) ts]))
    ∧ (setQuestionInputValue sanitize v s).questionInputValue = sanitize v
    ∧ (setQuestionInputValue sanitize v s).currentQuestion = sanitize v := by
  refine ⟨?_, rfl, rfl⟩
  intro s1 req h
  by_cases hq : sanitize s.questionInputValue = ""
  · rw [phase1_of_empty sanitize ts s hq] at h
    exact absurd (congrArg Prod.snd h) (by simp)
  · rw [phase1_of_ne sanitize ts s hq] at h
    have hs1 := congrArg Prod.fst h
    have hreq := congrArg Prod.snd h
    dsimp only at hs1 hreq
    have hreq2 := Option.some.inj hreq
    refine ⟨by rw [← hreq2], ?_, ?_⟩
    · rw [← hs1]
      split
      · rfl
      · rfl
    · intro him
      rw [← hs1, if_pos him]
      simp [processApiResponseUser, updateChatWithMessageOrChunkFinal, submitFlagsSet,
        userTurnEntry, dedupSet, firstSeenFrom]

/-- C8 witness: a concrete submission dispatches the sanitizer output, and
`setQuestionInputValue` stores the sanitizer output. -/
theorem c8_only_sanitized_text_witness :
    ChatRequestModel.question
        { question := sanitizeModel "hi", type := InteractionModel.chat }
      = sanitizeModel (withInput "hi" (initState InteractionModel.chat false)).questionInputValue
    ∧ (setQuestionInputValue sanitizeModel "abc"
        (initState InteractionModel.chat false)).questionInputValue = sanitizeModel "abc" := by
  have h := c8_only_sanitized_text sanitizeModel "t0" "abc"
      (withInput "hi" (initState InteractionModel.chat false))
  have h1 := h.1 (handleUserChatSubmitPhase1 sanitizeModel "t0"
      (withInput "hi" (initState InteractionModel.chat false))).1
      { question := sanitizeModel "hi", type := InteractionModel.chat } (by decide)
  exact ⟨h1.1, h.2.1⟩

/-- C10: In every reachable state the stored abort controller is un-aborted —
so the cancellation signal handed to the stream accumulator at the start of
an exchange is initially not aborted — and a cancel aborts only the old
controller while installing a fresh un-aborted replacement. -/
theorem c10_fresh_abort_signal (im : InteractionModel) (us : Bool) (ts : String) (u : Bool)
    (s : ChatState) (h : Reachable im us s) :
    s.abortController.aborted = false
    ∧ (updateChatWithChunkStart ts u s).2.aborted = false
    ∧ (handleUserChatCancel s).1.abortController.aborted = false
    ∧ (handleUserChatCancel s).2.aborted = true := by
  have hf := reachable_controller_fresh im us s h
  exact ⟨hf, hf, rfl, rfl⟩

/-- C10 witness: the initial state itself. -/
theorem c10_fresh_abort_signal_witness :
    (initState InteractionModel.chat true).abortController.aborted = false
    ∧ (updateChatWithChunkStart "t0" false (initState InteractionModel.chat true)).2.aborted = false
    ∧ (handleUserChatCancel (initState InteractionModel.chat true)).1.abortController.aborted = false
    ∧ (handleUserChatCancel (initState InteractionModel.chat true)).2.aborted = true :=
  c10_fresh_abort_signal InteractionModel.chat true "t0" false _ Relation.ReflTransGen.refl
